import Mathlib

/-!
# Receipt-insights: verification of the batch ingestion pipeline

A shallow embedding of the receipt-processing API route
(`retryWithBackoff`, `isNonRetryableError`, `classifyError`,
`processSingleReceipt`, the batch `POST` handler) and of the
dashboard aggregation route (`GET /api/dashboard-data`), with theorems
settling the specification claims about them.

Thrown JavaScript values are modelled by `JsError`: a flag recording
whether the value is an `Error` instance, an optional numeric `status`
field, and the message (for a non-`Error` value, `message` stands for
its `String(...)` rendering).
-/

namespace ReceiptInsights

/-- A thrown JavaScript value as inspected by the route's error handling. -/
structure JsError where
  isErrorInstance : Bool
  status : Option Int
  message : String
deriving DecidableEq, Repr

/-- JavaScript `String.prototype.includes`: substring test. -/
def strIncludes (hay needle : String) : Bool :=
  hay.toList.tails.any (fun t => needle.toList.isPrefixOf t)

/-- Embeds `isNonRetryableError` (route.ts lines 55–76): an `Error`
with a 4xx status other than 429, or whose message contains one of the
three terminal markers, is not retried; anything else is retryable. -/
def isNonRetryableError (e : JsError) : Bool :=
  if !e.isErrorInstance then false
  else if (match e.status with
           | some s => decide (400 ≤ s) && decide (s < 500) && !(decide (s = 429))
           | none => false) then true
  else if strIncludes e.message "Failed to parse" ||
          strIncludes e.message "validation failed" ||
          strIncludes e.message "Content blocked" then true
  else false

/-- The `{type, userMessage, shouldRetry}` record returned by `classifyError`. -/
structure ErrorClassification where
  type : String
  userMessage : String
  shouldRetry : Bool
deriving DecidableEq, Repr

/-- The message-substring branches of `classifyError` (reached when the
status field is absent or matches no status case). -/
def classifyByMessage (e : JsError) : ErrorClassification :=
  if strIncludes e.message "Content blocked" then
    ⟨"content_blocked",
     "The image was blocked by safety filters. Please try a different image.", false⟩
  else if strIncludes e.message "Failed to parse" then
    ⟨"parsing_error",
     "The AI could not extract valid data from the receipt. Please try a clearer image.", false⟩
  else if strIncludes e.message "Database operation failed" then
    ⟨"database_error", "Failed to save receipt data. Please try again.", true⟩
  else
    ⟨"general_error",
     "Processing failed. Please try again or contact support if the issue persists.", false⟩

/-- The `switch (status)` of `classifyError` (route.ts lines 92–125);
an unmatched status below 500 falls through to the message branches. -/
def classifyStatus (s : Int) (e : JsError) : ErrorClassification :=
  if s = 503 then
    ⟨"service_unavailable",
     "The AI service is temporarily overloaded. Please try again in a few minutes.", true⟩
  else if s = 429 then
    ⟨"rate_limit", "Too many requests. Please wait a moment and try again.", true⟩
  else if s = 400 then
    ⟨"invalid_request",
     "The image could not be processed. Please ensure it\x27s a clear receipt image.", false⟩
  else if s = 401 then
    ⟨"auth_error", "Authentication error. Please contact support.", false⟩
  else if 500 ≤ s then
    ⟨"server_error", "The AI service is experiencing issues. Please try again later.", true⟩
  else classifyByMessage e

/-- Embeds `classifyError` (route.ts lines 79–161). -/
def classifyError (e : JsError) : ErrorClassification :=
  if !e.isErrorInstance then
    ⟨"unknown", "An unexpected error occurred. Please try again.", false⟩
  else
    match e.status with
    | some s => classifyStatus s e
    | none => classifyByMessage e

/-! ## Retry policy -/

/-- The `RetryOptions` policy record. -/
structure RetryOptions where
  maxAttempts : Nat
  baseDelay : Nat
  maxDelay : Nat
  backoffMultiplier : Nat
deriving DecidableEq, Repr

/-- The default policy `{maxAttempts 3, baseDelay 1000, maxDelay 10000, multiplier 2}`. -/
def defaultRetryOptions : RetryOptions :=
  ⟨3, 1000, 10000, 2⟩

/-- Observable outcome of a `retryWithBackoff` run: how many times the
operation was invoked, the sleeps performed between attempts (ms), and
the final outcome (`.ok` value or the thrown error). -/
structure RetryResult (α : Type) where
  attempts : Nat
  sleeps : List Nat
  outcome : Except JsError α
deriving Repr

/-- Stands for JavaScript `undefined` being thrown by `throw lastError!`
when the attempt loop body never runs (`maxAttempts = 0`). -/
def undefinedThrown : JsError := ⟨false, none, "undefined"⟩

/-- One execution of the attempt loop of `retryWithBackoff` starting at
`attempt`, with `remaining = maxAttempts - attempt + 1` iterations left.
The operation is modelled as a function from the (1-based) attempt
number to that invocation's outcome. -/
def retryFrom (op : Nat → Except JsError α) (opts : RetryOptions) :
    Nat → Nat → RetryResult α
  | _, 0 => ⟨0, [], .error undefinedThrown⟩
  | attempt, r + 1 =>
    match op attempt with
    | .ok v => ⟨1, [], .ok v⟩
    | .error e =>
      if isNonRetryableError e then ⟨1, [], .error e⟩
      else if r = 0 then ⟨1, [], .error e⟩
      else
        let delay := min (opts.baseDelay * opts.backoffMultiplier ^ (attempt - 1)) opts.maxDelay
        let rest := retryFrom op opts (attempt + 1) r
        ⟨rest.attempts + 1, delay :: rest.sleeps, rest.outcome⟩

/-- Embeds `retryWithBackoff` (route.ts lines 13–52). -/
def retryWithBackoff (op : Nat → Except JsError α) (opts : RetryOptions) : RetryResult α :=
  retryFrom op opts 1 opts.maxAttempts

/-! ## Extracted data and its validation -/

/-- A parsed line item as it comes out of `JSON.parse`: each field may be
absent (`none`). For string fields, `some ""` models an empty string,
which is falsy in JavaScript; for `item_cost`, `none` models a value that
is missing or not of JavaScript type `number`. -/
structure LineItemJson where
  item_name : Option String
  item_cost : Option Rat
  category : Option String
deriving DecidableEq, Repr

/-- A parsed candidate record (`ExtractedReceiptData`) as it comes out of
`JSON.parse`, before the required-field validation; `none` models a missing
field (for `total_amount`, missing or not a `number`; for `line_items`,
missing — note an empty array is truthy in JavaScript and is kept). -/
structure ExtractedReceiptData where
  merchant_name : Option String
  merchant_address : Option String
  purchase_datetime : Option String
  currency_code : Option String
  total_amount : Option Rat
  category : Option String
  line_items : Option (List LineItemJson)
deriving DecidableEq, Repr

/-- JavaScript truthiness of an optional string: absent and `""` are falsy. -/
def optTruthy : Option String → Bool
  | none => false
  | some s => !(s == "")

/-- The fixed 15-member line-item category enumeration (route.ts lines 216–221). -/
def lineItemCategories : List String :=
  ["PRODUCE", "MEAT_POULTRY", "SEAFOOD", "EGGS", "GRAINS_PASTA",
   "LEGUMES_NUTS_SEEDS", "OILS_FATS", "SPICES_CONDIMENTS", "BEVERAGES",
   "SNACKS_SWEETS", "FROZEN_FOODS", "PANTRY_STAPLES", "HOUSEHOLD_CLEANING",
   "PERSONAL_CARE", "OTHER"]

/-- The per-line-item conjunct of the validation check (route.ts line 317):
`item.item_name && typeof item.item_cost === 'number' && item.category &&
lineItemCategories.includes(item.category)`. -/
def lineItemOk (it : LineItemJson) : Bool :=
  optTruthy it.item_name && it.item_cost.isSome && optTruthy it.category &&
    lineItemCategories.contains (it.category.getD "")

/-- The whole validation check of route.ts lines 316–317: all required
fields present (truthy / of type number) and every line item valid. -/
def isValidExtractedData (d : ExtractedReceiptData) : Bool :=
  optTruthy d.merchant_name && optTruthy d.purchase_datetime &&
    d.total_amount.isSome && optTruthy d.category && d.line_items.isSome &&
    (d.line_items.getD []).all lineItemOk

/-! ## Database model

The store is modelled by the rows visible to subsequent readers
(`receipts`, `lineItems`) plus the identifier sequence `nextId`.
Rows pending inside an open transaction are kept locally by
`runTransaction` and merged into the visible state only on commit. -/

/-- A committed row of the `receipts` table. -/
structure ReceiptRow where
  receipt_id : Nat
  merchant_name : String
  merchant_address : Option String
  purchase_datetime : String
  currency_code : String
  total_amount : Rat
  category : String
  processing_status : String
deriving DecidableEq, Repr

/-- A committed row of the `line_items` table. -/
structure LineItemRow where
  receipt_id : Nat
  item_name : String
  item_cost : Rat
  category : String
deriving DecidableEq, Repr

/-- The visible database state. -/
structure DbState where
  nextId : Nat
  receipts : List ReceiptRow
  lineItems : List LineItemRow
deriving DecidableEq, Repr

/-- Database statements issued by one document's pipeline, in order. An
event is recorded for a statement that took effect (`.commit` denotes a
successful commit; a failed commit attempt is followed by `.rollback`). -/
inductive DbEvent
  | connect
  | beginTx
  | insertReceipt (id : Nat)
  | insertLineItem (idx : Nat)
  | commit
  | rollback
  | release
deriving DecidableEq, Repr

/-- Fault injection for the statements of one persistence transaction:
`some e` makes that statement throw `e`. -/
structure TxFaults where
  beginFault : Option JsError
  insertReceiptFault : Option JsError
  lineItemFault : Nat → Option JsError
  commitFault : Option JsError

/-- The parent row built from validated data (route.ts lines 342–350). -/
def mkReceiptRow (id : Nat) (d : ExtractedReceiptData) : ReceiptRow :=
  ⟨id, d.merchant_name.getD "", d.merchant_address,
   d.purchase_datetime.getD "", d.currency_code.getD "",
   d.total_amount.getD 0, d.category.getD "", "COMPLETE"⟩

/-- A child row built from a validated line item (route.ts line 362). -/
def mkLineItemRow (id : Nat) (it : LineItemJson) : LineItemRow :=
  ⟨id, it.item_name.getD "", it.item_cost.getD 0, it.category.getD ""⟩

/-- The error re-thrown by the inner `catch` of the transaction
(route.ts line 389): `Database operation failed for ${fileName}.`. -/
def dbOpFailedError (fileName : String) : JsError :=
  ⟨true, none, "Database operation failed for " ++ fileName ++ "."⟩

/-- Embeds the per-document transaction of `processSingleReceipt`
(route.ts lines 332–390): `BEGIN`; inner try: parent insert returning the
generated id, all child inserts (issued together via `Promise.all`),
`COMMIT`; on any inner failure `ROLLBACK` and re-throw the
database-operation-failed error. A failing `BEGIN` is outside the inner
try and propagates its own error with no rollback. Returns the new
visible state, the event trace, and the generated id or the thrown error. -/
def runTransaction (fileName : String) (d : ExtractedReceiptData) (f : TxFaults)
    (st : DbState) : DbState × List DbEvent × Except JsError Nat :=
  match f.beginFault with
  | some e => (st, [], .error e)
  | none =>
    match f.insertReceiptFault with
    | some _ =>
      (st, [.beginTx, .rollback], .error (dbOpFailedError fileName))
    | none =>
      let newId := st.nextId
      let st1 : DbState := { st with nextId := st.nextId + 1 }
      let items := d.line_items.getD []
      let childEvents := (List.range items.length).map DbEvent.insertLineItem
      let evs := DbEvent.beginTx :: DbEvent.insertReceipt newId :: childEvents
      if (List.range items.length).any (fun i => (f.lineItemFault i).isSome) then
        (st1, evs ++ [.rollback], .error (dbOpFailedError fileName))
      else
        match f.commitFault with
        | some _ => (st1, evs ++ [.rollback], .error (dbOpFailedError fileName))
        | none =>
          ({ st1 with
              receipts := st.receipts ++ [mkReceiptRow newId d],
              lineItems := st.lineItems ++ items.map (mkLineItemRow newId) },
           evs ++ [.commit], .ok newId)

/-! ## The per-document pipeline -/

/-- The value produced by one successful `model.generateContent` call:
whether `result.response` is present (absent means the prompt was
blocked, with `blockReason`), and what `JSON.parse` yields on the
response text (`none` models a parse throw). -/
structure GenResponse where
  hasResponse : Bool
  blockReason : String
  parsed : Option ExtractedReceiptData

/-- Environment of one document's pipeline run: the outcome of each
Gemini attempt (1-based), a possible failure of `pool.connect()`, and
the fault injection for the transaction statements. -/
structure DocEnv where
  geminiOp : Nat → Except JsError GenResponse
  connectFault : Option JsError
  tx : TxFaults

/-- The error thrown when `result.response` is absent (route.ts line 306). -/
def contentBlockedError (reason : String) : JsError :=
  ⟨true, none, "Content blocked by safety filters: " ++ reason⟩

/-- The error thrown by the parse/validation `catch` (route.ts line 323). -/
def failedParseError : JsError :=
  ⟨true, none, "Failed to parse valid extraction results from AI."⟩

/-- The extraction phase of `processSingleReceipt` (route.ts lines
269–324): the retried Gemini call, the blocked-response check, and the
parse + required-field validation, whose failures are both re-thrown as
the failed-parse error. -/
def extractionStep (env : DocEnv) : Except JsError ExtractedReceiptData :=
  match (retryWithBackoff env.geminiOp defaultRetryOptions).outcome with
  | .error e => .error e
  | .ok r =>
    if !r.hasResponse then .error (contentBlockedError r.blockReason)
    else
      match r.parsed with
      | none => .error failedParseError
      | some d => if isValidExtractedData d then .ok d else .error failedParseError

/-- The per-document outcome record returned by `processSingleReceipt`. -/
structure ProcessResult where
  fileName : String
  status : String
  receiptId : Option Nat
  message : String
  errorType : Option String
  shouldRetry : Option Bool
  debugInfo : Option String
deriving DecidableEq, Repr

/-- The `'error'` `ProcessResult` built in the outer `catch` of
`processSingleReceipt` (route.ts lines 399–406) — identical in shape to
the one built for a rejected promise in the handler (lines 455–462). -/
def mkErrorResult (fileName : String) (e : JsError) : ProcessResult :=
  let actualError := e.message
  let info := classifyError e
  ⟨fileName, "error", none, fileName ++ ": " ++ actualError,
   some info.type, some info.shouldRetry, some actualError⟩

/-- The success `ProcessResult` (route.ts lines 374–379). -/
def mkSuccessResult (fileName : String) (id : Nat) : ProcessResult :=
  ⟨fileName, "success", some id,
   "Receipt processed and saved successfully (ID: " ++ toString id ++ ").",
   none, none, none⟩

/-- Embeds `processSingleReceipt` (route.ts lines 263–414): extraction,
then connection acquisition, then the transaction; every failure is
caught and converted to an `'error'` result; the `finally` block
releases the connection whenever it was acquired. Returns the result,
the new visible database state and the event trace. -/
def processSingleReceipt (fileName : String) (env : DocEnv) (st : DbState) :
    ProcessResult × DbState × List DbEvent :=
  match extractionStep env with
  | .error e => (mkErrorResult fileName e, st, [])
  | .ok d =>
    match env.connectFault with
    | some e => (mkErrorResult fileName e, st, [])
    | none =>
      match runTransaction fileName d env.tx st with
      | (st', evs, .ok id) =>
        (mkSuccessResult fileName id, st', .connect :: evs ++ [.release])
      | (st', evs, .error e) =>
        (mkErrorResult fileName e, st', .connect :: evs ++ [.release])

/-! ## The batch POST handler -/

/-- One submitted document together with the behaviour of its pipeline
run: `isFile` models the `instanceof File` check, `crash` (when `some`)
models the per-document promise rejecting unexpectedly instead of
fulfilling with a `ProcessResult`. -/
structure DocRun where
  name : String
  isFile : Bool
  env : DocEnv
  crash : Option JsError

/-- The hard cap on documents per batch (route.ts line 434). -/
def MAX_FILES : Nat := 5

/-- `Promise.allSettled` over the per-document pipelines: one settled
outcome per document (`.ok` a fulfilled `ProcessResult`, `.error` a
rejection reason), threading the visible database state. -/
def settleAll : List DocRun → DbState → List (Except JsError ProcessResult) × DbState
  | [], st => ([], st)
  | r :: rs, st =>
    match r.crash with
    | some e =>
      let rest := settleAll rs st
      (.error e :: rest.1, rest.2)
    | none =>
      let p := processSingleReceipt r.name r.env st
      let rest := settleAll rs p.2.1
      (.ok p.1 :: rest.1, rest.2)

/-- The consolidation step of the handler (route.ts lines 446–464):
fulfilled outcomes pass through, a rejected outcome becomes an
`'error'` result carrying the input document's filename. -/
def consolidate (names : List String) (settled : List (Except JsError ProcessResult)) :
    List ProcessResult :=
  (names.zip settled).map fun p =>
    match p.2 with
    | .ok r => r
    | .error e => mkErrorResult p.1 e

/-- The handler's response: a single batch-level rejection, or the
consolidated per-document results. -/
inductive PostResponse
  | batchError (message : String) (statusCode : Nat)
  | results (payload : List ProcessResult) (statusCode : Nat)
deriving DecidableEq, Repr

/-- Embeds the batch `POST` handler (route.ts lines 417–484): empty or
non-`File` submissions and batches over the cap are rejected wholesale
before processing; otherwise all documents are processed and the
consolidated results returned with status 200. -/
def POST (runs : List DocRun) (st : DbState) : PostResponse × DbState :=
  if runs.length = 0 then
    (.batchError "No image files uploaded." 400, st)
  else if runs.any (fun r => !r.isFile) then
    (.batchError "Invalid data received. Expected only files." 400, st)
  else if MAX_FILES < runs.length then
    (.batchError ("Too many files uploaded. Maximum is " ++ toString MAX_FILES ++ ".") 400, st)
  else
    let s := settleAll runs st
    (.results (consolidate (runs.map DocRun.name) s.1) 200, s.2)

/-! ## Dashboard aggregation (GET /api/dashboard-data)

The relational data read by the aggregation route is modelled by row
lists; `EXTRACT(MONTH/YEAR/DAY FROM purchase_datetime)` is modelled by
the pre-extracted components of each receipt row. `GROUP BY` without
`ORDER BY` returns one row per distinct key; the model returns groups
keyed by `List.dedup` of the key column, a concrete realisation of the
unspecified SQL row order. -/

/-- A receipt row as read by the dashboard queries. -/
structure DashReceipt where
  receipt_id : Nat
  total_amount : Rat
  purchase_year : Int
  purchase_month : Int
  purchase_day : Int
  processing_status : String
deriving DecidableEq, Repr

/-- A line-item row as read by the dashboard queries (`category` is a
nullable column). -/
structure DashLineItem where
  receipt_id : Nat
  item_cost : Rat
  category : Option String
deriving DecidableEq, Repr

/-- The tables the dashboard route reads. -/
structure DashDb where
  receipts : List DashReceipt
  lineItems : List DashLineItem
deriving DecidableEq, Repr

/-- The row filter shared by every dashboard query: completed receipts
of the target month and year. -/
def inWindow (m y : Int) (r : DashReceipt) : Bool :=
  r.processing_status == "COMPLETE" && r.purchase_month == m && r.purchase_year == y

/-- `JSON toFixed(2)` at the response boundary: round to two fractional
digits (half away from the floor). -/
def round2 (q : Rat) : Rat :=
  (round (q * 100) : Int) / 100

/-- The join of `line_items` with in-window `receipts`, projected to
`(category, item_cost)` — one element per matching row pair. -/
def joinedItems (db : DashDb) (m y : Int) : List (Option String × Rat) :=
  db.lineItems.flatMap fun li =>
    (db.receipts.filter fun r => li.receipt_id == r.receipt_id && inWindow m y r).map
      fun _ => (li.category, li.item_cost)

/-- The distinct category keys of the in-window join (the `GROUP BY`
keys, in the model's concrete order). -/
def catKeys (db : DashDb) (m y : Int) : List (Option String) :=
  ((joinedItems db m y).map Prod.fst).dedup

/-- `SUM(li.item_cost)` for one category key over the in-window join. -/
def catSum (db : DashDb) (m y : Int) (c : Option String) : Rat :=
  (((joinedItems db m y).filter fun p => p.1 == c).map Prod.snd).sum

/-- The `spendingByCategory` result set: one `(category, summed amount)`
row per distinct category of the window. -/
def spendingByCategory (db : DashDb) (m y : Int) : List (Option String × Rat) :=
  (catKeys db m y).map fun c => (c, catSum db m y c)

/-- The category label shown to the client: the `forEach` replacing SQL
`NULL` by `'Uncategorized'` (route.ts lines 99–103) composed with the
`item.category || 'Uncategorized'` fallback (line 141), which also
replaces an empty string. -/
def treemapName (c : Option String) : String :=
  match c with
  | none => "Uncategorized"
  | some s => if s == "" then "Uncategorized" else s

/-- The treemap construction before renaming/rounding (route.ts lines
137–145): keep only categories whose summed amount is positive
(`size > 0 ? size : undefined` then `filter`). -/
def treemapChildren (db : DashDb) (m y : Int) : List (Option String × Rat) :=
  (spendingByCategory db m y).filter fun p => decide (0 < p.2)

/-- The `treemapData` field of the response (route.ts lines 149–151 and
164–167): renamed categories with amounts rounded at the boundary. -/
def treemapData (db : DashDb) (m y : Int) : List (String × Rat) :=
  (treemapChildren db m y).map fun p => (treemapName p.1, round2 p.2)

/-- Insertion of an integer into an ascending list (used to model the
`ORDER BY day` of the spending-by-day query). -/
def insertAsc (x : Int) : List Int → List Int
  | [] => [x]
  | y :: ys => if x ≤ y then x :: y :: ys else y :: insertAsc x ys

/-- Ascending insertion sort on integers. -/
def sortAsc (xs : List Int) : List Int :=
  xs.foldr insertAsc []

/-- `SUM(total_amount)` of in-window receipts with the given day. -/
def daySum (db : DashDb) (m y d : Int) : Rat :=
  (((db.receipts.filter (inWindow m y)).filter fun r => r.purchase_day == d).map
      DashReceipt.total_amount).sum

/-- The spending-by-day result set (route.ts lines 118–134): one row per
distinct day of the window, ordered by day ascending. -/
def spendingByDay (db : DashDb) (m y : Int) : List (Int × Rat) :=
  (sortAsc ((db.receipts.filter (inWindow m y)).map DashReceipt.purchase_day).dedup).map
    fun d => (d, daySum db m y d)

/-- English month names, for the response label. -/
def monthNames : List String :=
  ["January", "February", "March", "April", "May", "June", "July",
   "August", "September", "October", "November", "December"]

/-- The `toLocaleString` month label (`'long'` month plus numeric year,
route.ts lines 66–67) of `new Date(targetYear, targetMonth - 1)`. -/
def monthLabel (y m : Int) : String :=
  monthNames.getD (m - 1).toNat "" ++ " " ++ toString y

/-- The `DashboardData` response shape. -/
structure DashboardData where
  totalSpending : Rat
  treemapData : List (String × Rat)
  spendingByDay : List (Int × Rat)
  totalReceiptsProcessed : Nat
  averageTransactionValue : Rat
  month : String
deriving DecidableEq, Repr

/-- The dashboard response for a resolved `(year, month)` window
(route.ts lines 69–177): all sums computed unrounded, monetary outputs
rounded to two digits at the boundary, average = total / count when the
count is positive. -/
def dashboardCore (db : DashDb) (ty tm : Int) : DashboardData :=
  let windowReceipts := db.receipts.filter (inWindow tm ty)
  let totalSpendingNumber : Rat := (windowReceipts.map DashReceipt.total_amount).sum
  let count := windowReceipts.length
  { totalSpending := round2 totalSpendingNumber
    treemapData := treemapData db tm ty
    spendingByDay := spendingByDay db tm ty
    totalReceiptsProcessed := count
    averageTransactionValue :=
      if 0 < count then round2 (totalSpendingNumber / count) else 0
    month := monthLabel ty tm }

/-! ### Query-parameter resolution -/

/-- JavaScript falsiness of `searchParams.get(...)`: `null` or `""`. -/
def jsFalsy : Option String → Bool
  | none => true
  | some s => s == ""

/-- Whitespace skipped by `parseInt`. -/
def isJsSpace (c : Char) : Bool :=
  c == ' ' || c == '\t' || c == '\n' || c == '\r'

/-- The longest leading digit run, as a number; `none` when there is no
leading digit (`parseInt` yields `NaN`). -/
def parseNatPrefix (cs : List Char) : Option Nat :=
  let ds := cs.takeWhile Char.isDigit
  if ds.isEmpty then none
  else some (ds.foldl (fun a c => a * 10 + (c.toNat - 48)) 0)

/-- JavaScript `parseInt(s, 10)`: skip whitespace, optional sign, read
the leading digit run; `none` models `NaN`. -/
def jsParseInt (s : String) : Option Int :=
  match s.toList.dropWhile isJsSpace with
  | '-' :: rest => (parseNatPrefix rest).map fun n => -(n : Int)
  | '+' :: rest => (parseNatPrefix rest).map fun n => (n : Int)
  | rest => (parseNatPrefix rest).map fun n => (n : Int)

/-- The parameter-resolution phase of the dashboard `GET` (route.ts
lines 44–63): a falsy parameter defaults to the current value
individually; then, if either parsed value is `NaN` or the month is out
of `1..12`, both fall back to the current year and month. -/
def resolveWindow (yp mp : Option String) (cy cm : Int) : Int × Int :=
  let tyO : Option Int := if jsFalsy yp then some cy else jsParseInt (yp.getD "")
  let tmO : Option Int := if jsFalsy mp then some cm else jsParseInt (mp.getD "")
  match tyO, tmO with
  | some ty, some tm => if tm < 1 || 12 < tm then (cy, cm) else (ty, tm)
  | _, _ => (cy, cm)

/-- Embeds the dashboard `GET` handler's success path: resolve the
window from the query parameters and the current date, then answer the
aggregation for that window. -/
def dashboardGET (db : DashDb) (yp mp : Option String) (cy cm : Int) : DashboardData :=
  let w := resolveWindow yp mp cy cm
  dashboardCore db w.1 w.2

/-! ## Theorems: retry policy and error classifier -/

/-- Unfolding lemma for one iteration of the attempt loop. -/
lemma retryFrom_step (op : Nat → Except JsError α) (opts : RetryOptions) (attempt r : Nat) :
    retryFrom op opts attempt (r + 1) =
      match op attempt with
      | .ok v => ⟨1, [], .ok v⟩
      | .error e =>
        if isNonRetryableError e then ⟨1, [], .error e⟩
        else if r = 0 then ⟨1, [], .error e⟩
        else
          let delay := min (opts.baseDelay * opts.backoffMultiplier ^ (attempt - 1)) opts.maxDelay
          let rest := retryFrom op opts (attempt + 1) r
          ⟨rest.attempts + 1, delay :: rest.sleeps, rest.outcome⟩ := rfl

/-- Helper: under the default policy, an always-failing operation whose
errors pass the retry gate runs the full three attempts, sleeping
1000 ms then 2000 ms, and surfaces the third error unchanged. -/
lemma retryWithBackoff_default_exhaustion
    (op : Nat → Except JsError Unit) (e : Nat → JsError)
    (hop : ∀ i, op i = .error (e i))
    (hretry : ∀ i, isNonRetryableError (e i) = false) :
    retryWithBackoff op defaultRetryOptions = ⟨3, [1000, 2000], .error (e 3)⟩ := by
  have h3 : retryFrom op ⟨3, 1000, 10000, 2⟩ 3 1 = ⟨1, [], .error (e 3)⟩ := by
    rw [show (1 : Nat) = 0 + 1 from rfl, retryFrom_step, hop 3]
    simp [hretry 3]
  have h2 : retryFrom op ⟨3, 1000, 10000, 2⟩ 2 2 = ⟨2, [2000], .error (e 3)⟩ := by
    rw [show (2 : Nat) = 1 + 1 from rfl, retryFrom_step, hop 2]
    simp [hretry 2, h3]
  show retryFrom op ⟨3, 1000, 10000, 2⟩ 1 (2 + 1) = _
  rw [retryFrom_step, hop 1]
  simp [hretry 1, h2]

/-- C3: an operation that always fails and whose failures the retry gate
classifies as retryable is, under the default policy
`{maxAttempts 3, baseDelay 1000, maxDelay 10000, multiplier 2}`, invoked
exactly 3 times, with sleeps of `min(1000·2^(k-1), 10000)` ms — 1000 ms
before attempt 2 and 2000 ms before attempt 3 — and the error thrown by
the last attempt is surfaced unchanged, not wrapped. -/
theorem retry_exhausts_three_attempts
    (op : Nat → Except JsError Unit) (e : Nat → JsError)
    (hop : ∀ i, op i = .error (e i))
    (hretry : ∀ i, isNonRetryableError (e i) = false) :
    retryWithBackoff op defaultRetryOptions = ⟨3, [1000, 2000], .error (e 3)⟩ :=
  retryWithBackoff_default_exhaustion op e hop hretry

/-- Witness for `retry_exhausts_three_attempts`: an operation always
failing with a 503 (retryable) error. -/
theorem retry_exhausts_three_attempts_witness :
    retryWithBackoff (fun _ => (Except.error ⟨true, some 503, "overloaded"⟩ :
        Except JsError Unit)) defaultRetryOptions
      = ⟨3, [1000, 2000], .error ⟨true, some 503, "overloaded"⟩⟩ := by
  have hnr : isNonRetryableError ⟨true, some 503, "overloaded"⟩ = false := by decide
  exact retry_exhausts_three_attempts (fun _ => Except.error ⟨true, some 503, "overloaded"⟩)
    (fun _ => ⟨true, some 503, "overloaded"⟩) (fun _ => rfl) (fun _ => hnr)

/-- C4 counterexample: a plain `Error` with a generic message is
classified `general_error` with retry hint `false`, yet the retry
policy retries it — the default policy performs all 3 attempts — so a
failure is not retried "if and only if" its classified category carries
a 'yes' retry hint. -/
theorem classifier_hint_no_retried_anyway :
    (classifyError ⟨true, none, "boom"⟩).shouldRetry = false
    ∧ (classifyError ⟨true, none, "boom"⟩).type = "general_error"
    ∧ (retryWithBackoff (fun _ => (Except.error ⟨true, none, "boom"⟩ :
          Except JsError Unit)) defaultRetryOptions).attempts = 3 := by
  have hnr : isNonRetryableError ⟨true, none, "boom"⟩ = false := by decide
  refine ⟨by decide, by decide, ?_⟩
  rw [retryWithBackoff_default_exhaustion (fun _ => Except.error ⟨true, none, "boom"⟩)
    (fun _ => ⟨true, none, "boom"⟩) (fun _ => rfl) (fun _ => hnr)]

/-- The four classifier categories whose retry hint is 'no' because the
submitted document (or static configuration) is at fault. -/
def terminalInputCategories : List String :=
  ["invalid_request", "auth_error", "content_blocked", "parsing_error"]

/-- The retry gate, as a proposition: an `Error` instance whose status
is 4xx other than 429, or whose message carries one of the three
terminal markers, is not retried. -/
lemma isNonRetryableError_true_iff (st : Option Int) (msg : String) :
    isNonRetryableError ⟨true, st, msg⟩ = true ↔
      (∃ s, st = some s ∧ 400 ≤ s ∧ s < 500 ∧ s ≠ 429)
      ∨ strIncludes msg "Failed to parse" = true
      ∨ strIncludes msg "validation failed" = true
      ∨ strIncludes msg "Content blocked" = true := by
  rw [isNonRetryableError]
  rcases st with _ | s <;> simp <;> tauto

/-- C4 amended: the retry policy treats a failure as terminal if and
only if `isNonRetryableError` holds — an `Error` whose status is a 4xx
other than 429 (the fast path), or whose message carries a
parse/validation/content-block marker. Consequently every failure
classified `invalid_request`, `auth_error`, `content_blocked` or
`parsing_error` is attempted exactly once, and any 4xx status other
than 429 is terminal; but a failure classified `general_error` or
`unknown` (retry hint 'no') is still retried for the full budget. -/
theorem retry_gate_characterization (e : JsError) :
    (retryWithBackoff (fun _ => (Except.error e : Except JsError Unit)) defaultRetryOptions
      = if isNonRetryableError e then ⟨1, [], .error e⟩ else ⟨3, [1000, 2000], .error e⟩)
    ∧ (terminalInputCategories.contains (classifyError e).type = true →
        isNonRetryableError e = true)
    ∧ (∀ s : Int, e.isErrorInstance = true → e.status = some s →
        400 ≤ s → s < 500 → s ≠ 429 → isNonRetryableError e = true) := by
  refine ⟨?_, ?_, ?_⟩
  · cases h : isNonRetryableError e
    · rw [retryWithBackoff_default_exhaustion _ (fun _ => e) (fun _ => rfl) (fun _ => h)]
      simp [h]
    · rw [retryWithBackoff, show defaultRetryOptions.maxAttempts = 2 + 1 from rfl,
        retryFrom_step]
      simp [h]
  · intro h
    rcases e with ⟨ie, st, msg⟩
    cases ie
    · have ht : (classifyError ⟨false, st, msg⟩).type = "unknown" := rfl
      rw [ht] at h
      exact absurd h (by decide)
    · rw [isNonRetryableError_true_iff]
      rcases st with _ | s
      · have hcl : classifyError ⟨true, none, msg⟩ = classifyByMessage ⟨true, none, msg⟩ := rfl
        rw [hcl, classifyByMessage] at h
        split_ifs at h with h1 h2 h3
        · exact Or.inr (Or.inr (Or.inr h1))
        · exact Or.inr (Or.inl h2)
        · exact absurd h (by decide)
        · exact absurd h (by decide)
      · have hcl : classifyError ⟨true, some s, msg⟩
            = classifyStatus s ⟨true, some s, msg⟩ := rfl
        rw [hcl, classifyStatus] at h
        split_ifs at h with h503 h429 h400 h401 h500
        · exact absurd h (by decide)
        · exact absurd h (by decide)
        · exact Or.inl ⟨s, rfl, by omega, by omega, fun hc => h429 (by omega)⟩
        · exact Or.inl ⟨s, rfl, by omega, by omega, fun hc => h429 (by omega)⟩
        · exact absurd h (by decide)
        · rw [classifyByMessage] at h
          split_ifs at h with h1 h2 h3
          · exact Or.inr (Or.inr (Or.inr h1))
          · exact Or.inr (Or.inl h2)
          · exact absurd h (by decide)
          · exact absurd h (by decide)
  · intro s hie hst h1 h2 h3
    rcases e with ⟨ie, st, msg⟩
    cases hie
    cases hst
    rw [isNonRetryableError_true_iff]
    exact Or.inl ⟨s, rfl, h1, h2, h3⟩

/-- Witness for `retry_gate_characterization`: a content-safety block is
non-retryable and performs exactly one attempt. -/
theorem retry_gate_characterization_witness :
    isNonRetryableError ⟨true, none, "Content blocked by safety filters: SAFETY"⟩ = true
    ∧ retryWithBackoff
        (fun _ => (Except.error ⟨true, none, "Content blocked by safety filters: SAFETY"⟩ :
          Except JsError Unit)) defaultRetryOptions
        = ⟨1, [], .error ⟨true, none, "Content blocked by safety filters: SAFETY"⟩⟩ := by
  have h := (retry_gate_characterization
    ⟨true, none, "Content blocked by safety filters: SAFETY"⟩).2.1 (by decide)
  exact ⟨h, by rw [(retry_gate_characterization
    ⟨true, none, "Content blocked by safety filters: SAFETY"⟩).1, if_pos h]⟩

/-- The spec's closed eight-member error taxonomy. -/
def specErrorTaxonomy : List String :=
  ["service_unavailable", "rate_limit", "invalid_request", "auth_error",
   "content_blocked", "parsing_error", "database_error", "general_error"]

/-- The categories the classifier actually emits: the spec's taxonomy
plus `server_error` (non-503 5xx statuses) and `unknown` (non-`Error`
values). -/
def implErrorTaxonomy : List String :=
  specErrorTaxonomy ++ ["server_error", "unknown"]

/-- C6 counterexample: a failure with status 500 (a 5xx-equivalent
signal) is classified `server_error`, not `service_unavailable`, and
`server_error` is outside the spec's eight-member taxonomy. -/
theorem status500_not_service_unavailable :
    (classifyError ⟨true, some 500, ""⟩).type = "server_error"
    ∧ (classifyError ⟨true, some 500, ""⟩).type ≠ "service_unavailable"
    ∧ specErrorTaxonomy.contains (classifyError ⟨true, some 500, ""⟩).type = false
    ∧ (classifyError ⟨true, some 500, ""⟩).shouldRetry = true := by
  refine ⟨by decide, by decide, by decide, by decide⟩

/-- C6 amended: status 503 is classified `service_unavailable` with
retry hint yes; every other 5xx-equivalent status is classified
`server_error`, also with retry hint yes; and every classifier output
category lies in the spec's eight-member taxonomy extended with
`server_error` and `unknown`. -/
theorem classifier_taxonomy (e : JsError) :
    (e.isErrorInstance = true → e.status = some 503 →
      (classifyError e).type = "service_unavailable" ∧ (classifyError e).shouldRetry = true)
    ∧ (∀ s : Int, e.isErrorInstance = true → e.status = some s → 500 ≤ s →
        (classifyError e).shouldRetry = true
        ∧ ((classifyError e).type = "service_unavailable"
           ∨ (classifyError e).type = "server_error"))
    ∧ implErrorTaxonomy.contains (classifyError e).type = true := by
  rcases e with ⟨ie, st, msg⟩
  refine ⟨?_, ?_, ?_⟩
  · intro hie hst
    cases hie
    cases hst
    exact ⟨rfl, rfl⟩
  · intro s hie hst h500
    cases hie
    cases hst
    have hcl : classifyError ⟨true, some s, msg⟩ = classifyStatus s ⟨true, some s, msg⟩ := rfl
    rw [hcl, classifyStatus]
    split_ifs with h503 h429 h400 h401
    · exact ⟨rfl, Or.inl rfl⟩
    · omega
    · omega
    · omega
    · exact ⟨rfl, Or.inr rfl⟩
  · cases ie
    · have ht : (classifyError ⟨false, st, msg⟩).type = "unknown" := rfl
      rw [ht]
      decide
    · rcases st with _ | s
      · have hcl : classifyError ⟨true, none, msg⟩ = classifyByMessage ⟨true, none, msg⟩ := rfl
        rw [hcl, classifyByMessage]
        split_ifs <;> decide
      · have hcl : classifyError ⟨true, some s, msg⟩
            = classifyStatus s ⟨true, some s, msg⟩ := rfl
        rw [hcl, classifyStatus, classifyByMessage]
        split_ifs <;> decide

/-- Witness for `classifier_taxonomy`: a 503 failure. -/
theorem classifier_taxonomy_witness :
    (classifyError ⟨true, some 503, "overloaded"⟩).type = "service_unavailable"
    ∧ (classifyError ⟨true, some 503, "overloaded"⟩).shouldRetry = true :=
  (classifier_taxonomy ⟨true, some 503, "overloaded"⟩).1 rfl rfl

/-! ## Theorems: persistence transaction and connection handling -/

/-- Branch equation: a failing `BEGIN` propagates its own error with no
events. -/
lemma runTransaction_eq_beginFault (n : String) (d : ExtractedReceiptData) (f : TxFaults)
    (st : DbState) (e : JsError) (hb : f.beginFault = some e) :
    runTransaction n d f st = (st, [], .error e) := by
  rw [runTransaction, hb]

/-- Branch equation: a failing parent insert rolls back and throws the
database-operation-failed error. -/
lemma runTransaction_eq_insertFault (n : String) (d : ExtractedReceiptData) (f : TxFaults)
    (st : DbState) (e : JsError) (hb : f.beginFault = none)
    (hi : f.insertReceiptFault = some e) :
    runTransaction n d f st
      = (st, [.beginTx, .rollback], .error (dbOpFailedError n)) := by
  rw [runTransaction, hb, hi]

/-- Branch equation: a failing child insert (after the parent insert
succeeded and consumed an identifier) rolls back and throws the
database-operation-failed error; the visible rows are unchanged. -/
lemma runTransaction_eq_childFault (n : String) (d : ExtractedReceiptData) (f : TxFaults)
    (st : DbState) (hb : f.beginFault = none) (hi : f.insertReceiptFault = none)
    (hany : ((List.range (d.line_items.getD []).length).any
        fun i => (f.lineItemFault i).isSome) = true) :
    runTransaction n d f st
      = ({ st with nextId := st.nextId + 1 },
         (DbEvent.beginTx :: DbEvent.insertReceipt st.nextId ::
            (List.range (d.line_items.getD []).length).map DbEvent.insertLineItem)
           ++ [.rollback],
         .error (dbOpFailedError n)) := by
  rw [runTransaction, hb, hi]
  simp only [hany, if_true]

/-- Branch equation: a failing `COMMIT` rolls back; visible rows
unchanged. -/
lemma runTransaction_eq_commitFault (n : String) (d : ExtractedReceiptData) (f : TxFaults)
    (st : DbState) (e : JsError) (hb : f.beginFault = none) (hi : f.insertReceiptFault = none)
    (hany : ((List.range (d.line_items.getD []).length).any
        fun i => (f.lineItemFault i).isSome) = false)
    (hc : f.commitFault = some e) :
    runTransaction n d f st
      = ({ st with nextId := st.nextId + 1 },
         (DbEvent.beginTx :: DbEvent.insertReceipt st.nextId ::
            (List.range (d.line_items.getD []).length).map DbEvent.insertLineItem)
           ++ [.rollback],
         .error (dbOpFailedError n)) := by
  rw [runTransaction, hb, hi]
  simp only [hany, Bool.false_eq_true, if_false, hc]

/-- Branch equation: the fault-free transaction commits after every
child insert and makes exactly the new parent and child rows visible. -/
lemma runTransaction_eq_commit (n : String) (d : ExtractedReceiptData) (f : TxFaults)
    (st : DbState) (hb : f.beginFault = none) (hi : f.insertReceiptFault = none)
    (hany : ((List.range (d.line_items.getD []).length).any
        fun i => (f.lineItemFault i).isSome) = false)
    (hc : f.commitFault = none) :
    runTransaction n d f st
      = (⟨st.nextId + 1,
          st.receipts ++ [mkReceiptRow st.nextId d],
          st.lineItems ++ (d.line_items.getD []).map (mkLineItemRow st.nextId)⟩,
         (DbEvent.beginTx :: DbEvent.insertReceipt st.nextId ::
            (List.range (d.line_items.getD []).length).map DbEvent.insertLineItem)
           ++ [.commit],
         .ok st.nextId) := by
  rw [runTransaction, hb, hi]
  simp only [hany, Bool.false_eq_true, if_false, hc]

/-- C2: per-document transactional atomicity. If any statement after a
successful `BEGIN` fails — parent insert, any child line-item insert,
or the commit itself — a `ROLLBACK` is issued, no `COMMIT` occurs, and
the visible `receipts` and `line_items` rows are exactly those of the
initial state (no partial state for that document remains visible). On
success, the event trace is `BEGIN`, the parent insert, every child
insert, then `COMMIT` last, and exactly the parent row and its child
rows become visible. -/
theorem transaction_rollback_atomicity (fileName : String) (d : ExtractedReceiptData)
    (f : TxFaults) (st : DbState) :
    (∀ e, f.beginFault = none →
        (runTransaction fileName d f st).2.2 = .error e →
        (runTransaction fileName d f st).1.receipts = st.receipts
        ∧ (runTransaction fileName d f st).1.lineItems = st.lineItems
        ∧ DbEvent.rollback ∈ (runTransaction fileName d f st).2.1
        ∧ DbEvent.commit ∉ (runTransaction fileName d f st).2.1)
    ∧ (∀ id, (runTransaction fileName d f st).2.2 = .ok id →
        (runTransaction fileName d f st).2.1
          = (DbEvent.beginTx :: DbEvent.insertReceipt id ::
              (List.range (d.line_items.getD []).length).map DbEvent.insertLineItem)
              ++ [DbEvent.commit]
        ∧ (runTransaction fileName d f st).1.receipts = st.receipts ++ [mkReceiptRow id d]
        ∧ (runTransaction fileName d f st).1.lineItems
            = st.lineItems ++ (d.line_items.getD []).map (mkLineItemRow id)) := by
  rcases hb : f.beginFault with _ | eb
  · rcases hi : f.insertReceiptFault with _ | ei
    · cases hany : ((List.range (d.line_items.getD []).length).any
          fun i => (f.lineItemFault i).isSome)
      · rcases hc : f.commitFault with _ | ec
        · rw [runTransaction_eq_commit fileName d f st hb hi hany hc]
          constructor
          · intro e _ he
            exact Except.noConfusion he
          · intro id hid
            obtain rfl : st.nextId = id := by injection hid
            exact ⟨rfl, rfl, rfl⟩
        · rw [runTransaction_eq_commitFault fileName d f st ec hb hi hany hc]
          constructor
          · intro e _ _
            refine ⟨rfl, rfl, ?_, ?_⟩
            · simp
            · simp [List.mem_map]
          · intro id hid
            exact Except.noConfusion hid
      · rw [runTransaction_eq_childFault fileName d f st hb hi hany]
        constructor
        · intro e _ _
          refine ⟨rfl, rfl, ?_, ?_⟩
          · simp
          · simp [List.mem_map]
        · intro id hid
          exact Except.noConfusion hid
    · rw [runTransaction_eq_insertFault fileName d f st ei hb hi]
      constructor
      · intro e _ _
        refine ⟨rfl, rfl, ?_, ?_⟩
        · simp
        · simp
      · intro id hid
        exact Except.noConfusion hid
  · rw [runTransaction_eq_beginFault fileName d f st eb hb]
    constructor
    · intro e hb2 _
      exact Option.noConfusion hb2
    · intro id hid
      exact Except.noConfusion hid

/-- Concrete data for the transaction witness: a record with two line
items. -/
def txWitnessData : ExtractedReceiptData :=
  ⟨some "Edeka", none, some "2025-03-01T00:00:00", some "EUR", some 15, some "Groceries",
   some [⟨some "Milk", some 5, some "PRODUCE"⟩, ⟨some "Bread", some 10, some "GRAINS_PASTA"⟩]⟩

/-- Fault injection failing the second child insert. -/
def txWitnessFaults : TxFaults :=
  ⟨none, none, fun i => if i = 1 then some ⟨true, none, "duplicate key"⟩ else none, none⟩

/-- Witness for `transaction_rollback_atomicity`: with the second child
insert failing after the parent insert succeeded, the transaction rolls
back and the initial (empty) visible state is unchanged. -/
theorem transaction_rollback_atomicity_witness :
    (runTransaction "a.jpg" txWitnessData txWitnessFaults ⟨0, [], []⟩).1.receipts = []
    ∧ (runTransaction "a.jpg" txWitnessData txWitnessFaults ⟨0, [], []⟩).1.lineItems = []
    ∧ DbEvent.rollback ∈ (runTransaction "a.jpg" txWitnessData txWitnessFaults ⟨0, [], []⟩).2.1
    ∧ DbEvent.commit ∉ (runTransaction "a.jpg" txWitnessData txWitnessFaults ⟨0, [], []⟩).2.1 :=
  (transaction_rollback_atomicity "a.jpg" txWitnessData txWitnessFaults ⟨0, [], []⟩).1
    (dbOpFailedError "a.jpg") rfl rfl

/-- The transaction trace contains no connection-pool events. -/
lemma runTransaction_no_pool_events (fileName : String) (d : ExtractedReceiptData)
    (f : TxFaults) (st : DbState) :
    (runTransaction fileName d f st).2.1.count DbEvent.connect = 0
    ∧ (runTransaction fileName d f st).2.1.count DbEvent.release = 0 := by
  rcases hb : f.beginFault with _ | eb
  · rcases hi : f.insertReceiptFault with _ | ei
    · cases hany : ((List.range (d.line_items.getD []).length).any
          fun i => (f.lineItemFault i).isSome)
      · rcases hc : f.commitFault with _ | ec
        · rw [runTransaction_eq_commit fileName d f st hb hi hany hc]
          constructor
          · simp [List.count_eq_zero, List.mem_map]
          · simp [List.count_eq_zero, List.mem_map]
        · rw [runTransaction_eq_commitFault fileName d f st ec hb hi hany hc]
          constructor
          · simp [List.count_eq_zero, List.mem_map]
          · simp [List.count_eq_zero, List.mem_map]
      · rw [runTransaction_eq_childFault fileName d f st hb hi hany]
        constructor
        · simp [List.count_eq_zero, List.mem_map]
        · simp [List.count_eq_zero, List.mem_map]
    · rw [runTransaction_eq_insertFault fileName d f st ei hb hi]
      exact ⟨rfl, rfl⟩
  · rw [runTransaction_eq_beginFault fileName d f st eb hb]
    exact ⟨rfl, rfl⟩

/-- Branch equation: an extraction-phase failure yields an error result
with no database activity. -/
lemma processSingleReceipt_eq_extractionError (fileName : String) (env : DocEnv)
    (st : DbState) (e : JsError) (hx : extractionStep env = .error e) :
    processSingleReceipt fileName env st = (mkErrorResult fileName e, st, []) := by
  rw [processSingleReceipt, hx]

/-- Branch equation: a failing `pool.connect()` yields an error result
with no database activity and no release (`dbClient` stays undefined). -/
lemma processSingleReceipt_eq_connectFault (fileName : String) (env : DocEnv)
    (st : DbState) (d : ExtractedReceiptData) (e : JsError)
    (hx : extractionStep env = .ok d) (hc : env.connectFault = some e) :
    processSingleReceipt fileName env st = (mkErrorResult fileName e, st, []) := by
  rw [processSingleReceipt, hx, hc]

/-- Branch equation: with a connection acquired, the pipeline runs the
transaction, produces the matching result, and the trace is `connect`,
the transaction statements, then `release`. -/
lemma processSingleReceipt_eq_txn (fileName : String) (env : DocEnv)
    (st : DbState) (d : ExtractedReceiptData)
    (hx : extractionStep env = .ok d) (hc : env.connectFault = none) :
    processSingleReceipt fileName env st
      = ((match (runTransaction fileName d env.tx st).2.2 with
          | .ok id => mkSuccessResult fileName id
          | .error e => mkErrorResult fileName e),
         (runTransaction fileName d env.tx st).1,
         DbEvent.connect :: (runTransaction fileName d env.tx st).2.1 ++ [DbEvent.release]) := by
  rw [processSingleReceipt]
  simp only [hx, hc]
  rcases hr : runTransaction fileName d env.tx st with ⟨st2, evs, res⟩
  rcases res with id | e
  · rfl
  · rfl

/-- C9: on every execution path of `processSingleReceipt`, either no
connection was acquired and the event trace is empty, or the trace
contains exactly one `connect` and exactly one `release`, with the
`release` as its final event — an acquired connection is released
exactly once before the function returns, on success, rollback and
failure paths alike. -/
theorem connection_release_balanced (fileName : String) (env : DocEnv) (st : DbState) :
    (processSingleReceipt fileName env st).2.2 = []
    ∨ ((processSingleReceipt fileName env st).2.2.count DbEvent.connect = 1
       ∧ (processSingleReceipt fileName env st).2.2.count DbEvent.release = 1
       ∧ (processSingleReceipt fileName env st).2.2.getLast? = some DbEvent.release) := by
  rcases hx : extractionStep env with e | d
  · rw [processSingleReceipt_eq_extractionError fileName env st e hx]
    exact Or.inl rfl
  · rcases hc : env.connectFault with _ | ce
    · rw [processSingleReceipt_eq_txn fileName env st d hx hc]
      obtain ⟨hcn, hrl⟩ := runTransaction_no_pool_events fileName d env.tx st
      refine Or.inr ⟨?_, ?_, ?_⟩
      · simp [List.count_cons, List.count_append, hcn]
      · simp [List.count_cons, List.count_append, hrl]
      · rw [show DbEvent.connect :: (runTransaction fileName d env.tx st).2.1
              ++ [DbEvent.release]
            = (DbEvent.connect :: (runTransaction fileName d env.tx st).2.1)
              ++ [DbEvent.release] from rfl, List.getLast?_concat]
    · rw [processSingleReceipt_eq_connectFault fileName env st d ce hx hc]
      exact Or.inl rfl

/-! ## Theorems: schema validation -/

/-- C5: if the Gemini call succeeds, the response is not blocked and it
parses to a candidate record `d` in which some required field is
missing/falsy (merchant name, purchase datetime, numeric total amount,
receipt category, line-items array, or a line item's name or numeric
cost) or some line item's category is outside the fixed 15-member
enumeration, then `processSingleReceipt` rejects the whole record with
an error result: the event trace is empty (no database connection is
ever acquired) and the database state is unchanged — zero receipt rows
and zero line-item rows are persisted, with no partial acceptance of
the valid line items. -/
theorem invalid_record_rejected_before_connect (fileName : String) (env : DocEnv)
    (st : DbState) (r : GenResponse) (d : ExtractedReceiptData)
    (hret : (retryWithBackoff env.geminiOp defaultRetryOptions).outcome = .ok r)
    (hresp : r.hasResponse = true)
    (hparsed : r.parsed = some d)
    (hbad : optTruthy d.merchant_name = false
      ∨ optTruthy d.purchase_datetime = false
      ∨ d.total_amount = none
      ∨ optTruthy d.category = false
      ∨ d.line_items = none
      ∨ ∃ it ∈ d.line_items.getD [],
          (optTruthy it.item_name = false ∨ it.item_cost = none
           ∨ optTruthy it.category = false
           ∨ lineItemCategories.contains (it.category.getD "") = false)) :
    processSingleReceipt fileName env st = (mkErrorResult fileName failedParseError, st, []) := by
  have hval : isValidExtractedData d = false := by
    rw [isValidExtractedData]
    rcases hbad with h | h | h | h | h | ⟨it, hit, h⟩
    · simp [h]
    · simp [h]
    · simp [h]
    · simp [h]
    · simp [h]
    · have hall : (d.line_items.getD []).all lineItemOk = false := by
        rw [List.all_eq_false]
        refine ⟨it, hit, ?_⟩
        rw [lineItemOk]
        rcases h with h | h | h | h
        · simp [h]
        · simp [h]
        · simp [h]
        · rw [h]
          simp
      simp [hall]
  have hx : extractionStep env = .error failedParseError := by
    rw [extractionStep, hret]
    simp [hresp, hparsed, hval]
  exact processSingleReceipt_eq_extractionError fileName env st failedParseError hx

/-- Concrete invalid candidate record for the C5 witness: the second
line item's category is outside the enumeration. -/
def badCategoryData : ExtractedReceiptData :=
  ⟨some "Edeka", none, some "2025-03-01T00:00:00", some "EUR", some 15, some "Groceries",
   some [⟨some "Milk", some 5, some "PRODUCE"⟩, ⟨some "Candles", some 10, some "DECOR"⟩]⟩

/-- A pipeline environment whose Gemini call immediately returns a
response parsing to `badCategoryData`. -/
def badCategoryEnv : DocEnv :=
  ⟨fun _ => .ok ⟨true, "", some badCategoryData⟩, none, ⟨none, none, fun _ => none, none⟩⟩

/-- Witness for `invalid_record_rejected_before_connect`: the record
with an out-of-enumeration line-item category is rejected whole, with
no database events and the empty state unchanged. -/
theorem invalid_record_rejected_before_connect_witness :
    processSingleReceipt "bad.jpg" badCategoryEnv ⟨0, [], []⟩
      = (mkErrorResult "bad.jpg" failedParseError, ⟨0, [], []⟩, []) :=
  invalid_record_rejected_before_connect "bad.jpg" badCategoryEnv ⟨0, [], []⟩
    ⟨true, "", some badCategoryData⟩ badCategoryData rfl rfl rfl
    (Or.inr (Or.inr (Or.inr (Or.inr (Or.inr
      ⟨⟨some "Candles", some 10, some "DECOR"⟩, by decide, Or.inr (Or.inr (Or.inr (by decide)))⟩)))))

/-! ## Theorems: batch orchestration -/

/-- Both the success and the error result carry the input filename. -/
lemma processSingleReceipt_fileName (n : String) (env : DocEnv) (st : DbState) :
    (processSingleReceipt n env st).1.fileName = n := by
  rcases hx : extractionStep env with e | d
  · rw [processSingleReceipt_eq_extractionError n env st e hx]
    rfl
  · rcases hc : env.connectFault with _ | ce
    · rw [processSingleReceipt_eq_txn n env st d hx hc]
      rcases (runTransaction n d env.tx st).2.2 with id | e
      · rfl
      · rfl
    · rw [processSingleReceipt_eq_connectFault n env st d ce hx hc]
      rfl

/-- Fallback pipeline environment (used only as a `getD` default). -/
def dummyDocEnv : DocEnv :=
  ⟨fun _ => .error ⟨false, none, ""⟩, none, ⟨none, none, fun _ => none, none⟩⟩

/-- Fallback document run (used only as a `getD` default). -/
def dummyDocRun : DocRun := ⟨"", true, dummyDocEnv, none⟩

/-- Fallback result (used only as a `getD` default). -/
def dummyProcessResult : ProcessResult := ⟨"", "", none, "", none, none, none⟩

/-- `Promise.allSettled` yields one settled outcome per document. -/
lemma settleAll_length (runs : List DocRun) : ∀ st : DbState,
    (settleAll runs st).1.length = runs.length := by
  induction runs with
  | nil => intro st; rfl
  | cons r rs ih =>
    intro st
    rw [settleAll]
    rcases hc : r.crash with _ | e <;> simp only [hc] <;> simp [ih]

/-- Pointwise description of the consolidated payload: position `i`
carries the filename of input `i`, and a crashed (rejected) pipeline
promise yields an `'error'` result at its position. -/
lemma batch_payload_spec (runs : List DocRun) : ∀ (st : DbState) (i : Nat), i < runs.length →
    ((consolidate (runs.map DocRun.name) (settleAll runs st).1).getD i
        dummyProcessResult).fileName
      = (runs.getD i dummyDocRun).name
    ∧ ((runs.getD i dummyDocRun).crash.isSome = true →
        ((consolidate (runs.map DocRun.name) (settleAll runs st).1).getD i
            dummyProcessResult).status = "error") := by
  induction runs with
  | nil =>
    intro st i h
    exact absurd h (Nat.not_lt_zero i)
  | cons r rs ih =>
    intro st i h
    rw [settleAll]
    rcases hc : r.crash with _ | e <;> simp only [hc]
    · cases i with
      | zero =>
        constructor
        · simp [consolidate, processSingleReceipt_fileName]
        · intro hcr
          rw [List.getD_cons_zero] at hcr
          rw [hc] at hcr
          cases hcr
      | succ j =>
        have hj : j < rs.length := by simpa using h
        simpa [consolidate] using ih (processSingleReceipt r.name r.env st).2.1 j hj
    · cases i with
      | zero =>
        constructor
        · simp [consolidate, mkErrorResult]
        · intro _
          simp [consolidate, mkErrorResult]
      | succ j =>
        have hj : j < rs.length := by simpa using h
        simpa [consolidate] using ih st j hj

/-- C1: for every accepted batch (nonempty, all entries `File`s, at
most the cap of 5), the handler returns HTTP 200 with exactly one
`ProcessResult` per `InputDocument`; the result at position `i` carries
the filename of the input at position `i`; and an unexpected rejection
of a per-document promise surfaces as an `'error'` result at its
position rather than failing the batch call. -/
theorem batch_one_result_per_document (runs : List DocRun) (st : DbState)
    (hne : runs.length ≠ 0) (hcap : runs.length ≤ MAX_FILES)
    (hfiles : (runs.any fun r => !r.isFile) = false) :
    ∃ payload st2,
      POST runs st = (.results payload 200, st2)
      ∧ payload.length = runs.length
      ∧ ∀ i, i < runs.length →
          ((payload.getD i dummyProcessResult).fileName = (runs.getD i dummyDocRun).name
           ∧ ((runs.getD i dummyDocRun).crash.isSome = true →
               (payload.getD i dummyProcessResult).status = "error")) := by
  refine ⟨consolidate (runs.map DocRun.name) (settleAll runs st).1, (settleAll runs st).2,
    ?_, ?_, ?_⟩
  · rw [POST, if_neg hne, if_neg (by simp [hfiles]), if_neg (Nat.not_lt.mpr hcap)]
  · simp [consolidate, settleAll_length]
  · exact fun i h => batch_payload_spec runs st i h

/-- A run whose pipeline promise rejects unexpectedly. -/
def crashRun : DocRun := ⟨"crash.jpg", true, dummyDocEnv, some ⟨false, none, "worker died"⟩⟩

/-- A run whose pipeline fulfills (with an error result). -/
def fulfilledRun : DocRun := ⟨"ok.jpg", true, badCategoryEnv, none⟩

/-- Witness for `batch_one_result_per_document`: a two-document batch,
the first document's promise rejecting unexpectedly. -/
theorem batch_one_result_per_document_witness :
    ∃ payload st2,
      POST [crashRun, fulfilledRun] ⟨0, [], []⟩ = (.results payload 200, st2)
      ∧ payload.length = [crashRun, fulfilledRun].length
      ∧ ∀ i, i < [crashRun, fulfilledRun].length →
          ((payload.getD i dummyProcessResult).fileName
              = ([crashRun, fulfilledRun].getD i dummyDocRun).name
           ∧ (([crashRun, fulfilledRun].getD i dummyDocRun).crash.isSome = true →
               (payload.getD i dummyProcessResult).status = "error")) :=
  batch_one_result_per_document [crashRun, fulfilledRun] ⟨0, [], []⟩
    (by decide) (by decide) rfl

/-- C7: a batch of more than `MAX_FILES = 5` documents is rejected
wholesale with a single batch-level 400 response — per-document results
are never produced — and the database state is returned unchanged:
zero documents processed, zero rows persisted. When all entries are
`File`s the message is the cap message. -/
theorem over_cap_batch_rejected (runs : List DocRun) (st : DbState)
    (h : MAX_FILES < runs.length) :
    (∃ msg, POST runs st = (.batchError msg 400, st))
    ∧ ((runs.any fun r => !r.isFile) = false →
        POST runs st
          = (.batchError ("Too many files uploaded. Maximum is "
              ++ toString MAX_FILES ++ ".") 400, st)) := by
  have h5 : (5 : Nat) < runs.length := h
  have hne : ¬ (runs.length = 0) := by omega
  constructor
  · cases hbad : (runs.any fun r => !r.isFile)
    · refine ⟨"Too many files uploaded. Maximum is " ++ toString MAX_FILES ++ ".", ?_⟩
      rw [POST, if_neg hne, if_neg (by simp [hbad]), if_pos h]
    · refine ⟨"Invalid data received. Expected only files.", ?_⟩
      rw [POST, if_neg hne, if_pos (by simp [hbad])]
  · intro hfiles
    rw [POST, if_neg hne, if_neg (by simp [hfiles]), if_pos h]

/-- Witness for `over_cap_batch_rejected`: six documents. -/
theorem over_cap_batch_rejected_witness :
    POST [dummyDocRun, dummyDocRun, dummyDocRun, dummyDocRun, dummyDocRun, dummyDocRun]
        ⟨0, [], []⟩
      = (.batchError ("Too many files uploaded. Maximum is " ++ toString MAX_FILES ++ ".")
          400, ⟨0, [], []⟩) :=
  (over_cap_batch_rejected
    [dummyDocRun, dummyDocRun, dummyDocRun, dummyDocRun, dummyDocRun, dummyDocRun]
    ⟨0, [], []⟩ (by decide)).2 rfl

/-! ## Theorems: dashboard aggregation -/

/-- Descending order on the summed amounts of a treemap row list. -/
def sortedDesc : List (String × Rat) → Bool
  | [] => true
  | [_] => true
  | a :: b :: t => decide (b.2 ≤ a.2) && sortedDesc (b :: t)

/-- A concrete window: one completed receipt with two line items,
category `A` summing to 5 and category `B` summing to 10, with `A`
first in table order. -/
def c8db : DashDb :=
  ⟨[⟨1, 15, 2025, 3, 1, "COMPLETE"⟩], [⟨1, 5, some "A"⟩, ⟨1, 10, some "B"⟩]⟩

/-- On `c8db`, the per-category rows kept for the treemap are `A ↦ 5`
then `B ↦ 10`, in table order. -/
lemma c8db_children_eq :
    treemapChildren c8db 3 2025 = [(some "A", 5), (some "B", 10)] := by
  have hj : joinedItems c8db 3 2025 = [(some "A", 5), (some "B", 10)] := by decide
  have hk : catKeys c8db 3 2025 = [some "A", some "B"] := by decide
  have hsA : catSum c8db 3 2025 (some "A") = 5 := by
    rw [catSum, hj]
    simp [List.filter, beq_iff_eq]
  have hsB : catSum c8db 3 2025 (some "B") = 10 := by
    rw [catSum, hj]
    simp [List.filter, beq_iff_eq]
  rw [treemapChildren, spendingByCategory, hk]
  simp [hsA, hsB]

/-- On `c8db`, the `treemapData` field of the response is `A ↦ 5` then
`B ↦ 10`. -/
lemma c8db_treemapData_eq :
    treemapData c8db 3 2025 = [("A", 5), ("B", 10)] := by
  rw [treemapData, c8db_children_eq]
  simp [treemapName, beq_iff_eq, round2]
  norm_num

/-- C8 counterexample: the per-category breakdown is not sorted by
descending summed amount — the category query has no `ORDER BY` and
the handler never sorts, so the rows keep their table order: on `c8db`
the response lists `("A", 5)` before `("B", 10)`. -/
theorem treemap_not_sorted_descending :
    treemapData c8db 3 2025 = [("A", 5), ("B", 10)]
    ∧ sortedDesc (treemapData c8db 3 2025) = false := by
  refine ⟨c8db_treemapData_eq, ?_⟩
  rw [c8db_treemapData_eq]
  norm_num [sortedDesc, decide_eq_false_iff_not]

/-- C8 amended: the per-category breakdown has one entry per distinct
category present in the window, each entry carrying that category's
summed amount, entries with zero or negative summed amount excluded —
but the entries carry no ordering guarantee (no sort is applied). The
response's `treemapData` is exactly these entries, renamed and rounded
at the boundary. -/
theorem treemap_distinct_positive_entries (db : DashDb) (m y : Int) :
    ((treemapChildren db m y).map Prod.fst).Nodup
    ∧ (∀ p ∈ treemapChildren db m y, 0 < p.2 ∧ p.2 = catSum db m y p.1)
    ∧ (∀ c, c ∈ (treemapChildren db m y).map Prod.fst ↔
        (c ∈ (joinedItems db m y).map Prod.fst ∧ 0 < catSum db m y c))
    ∧ treemapData db m y
        = (treemapChildren db m y).map fun p => (treemapName p.1, round2 p.2) := by
  have hfst : ((spendingByCategory db m y).map Prod.fst) = catKeys db m y := by
    rw [spendingByCategory, List.map_map,
      show (Prod.fst ∘ fun c => (c, catSum db m y c)) = id from rfl, List.map_id]
  refine ⟨?_, ?_, ?_, rfl⟩
  · have hsub : List.Sublist (treemapChildren db m y) (spendingByCategory db m y) :=
      List.filter_sublist _
    refine List.Nodup.sublist (hsub.map Prod.fst) ?_
    rw [hfst, catKeys]
    exact List.nodup_dedup _
  · intro p hp
    rw [treemapChildren] at hp
    obtain ⟨hp1, hp2⟩ := List.mem_filter.mp hp
    rw [spendingByCategory] at hp1
    obtain ⟨c, _, rfl⟩ := List.mem_map.mp hp1
    exact ⟨by simpa using hp2, rfl⟩
  · intro c
    simp only [treemapChildren, spendingByCategory, catKeys, List.mem_map, List.mem_filter,
      List.mem_dedup]
    constructor
    · rintro ⟨p, ⟨⟨k, hk, rfl⟩, hpos⟩, rfl⟩
      exact ⟨hk, by simpa using hpos⟩
    · rintro ⟨hc, hpos⟩
      exact ⟨(c, catSum db m y c), ⟨⟨c, hc, rfl⟩, by simpa using hpos⟩, rfl⟩

/-- Witness for `treemap_distinct_positive_entries`: on `c8db` the
entry for category `A` is positive and carries the summed amount. -/
theorem treemap_distinct_positive_entries_witness :
    0 < (5 : Rat) ∧ (5 : Rat) = catSum c8db 3 2025 (some "A") := by
  have hmem : ((some "A", (5 : Rat))) ∈ treemapChildren c8db 3 2025 := by
    rw [c8db_children_eq]
    simp
  exact (treemap_distinct_positive_entries c8db 3 2025).2.1 (some "A", 5) hmem

/-- C10 counterexample: a request with `year=2024` and no month
parameter, arriving when the current date is July 2025, is answered for
the window `(2024, 7)` — the missing month defaults to the current
month but the provided year 2024 is kept, so the handler does not
substitute "the current year and month", and the response is labelled
`July 2024`, not `July 2025`. -/
theorem missing_month_defaults_individually :
    resolveWindow (some "2024") none 2025 7 = (2024, 7)
    ∧ ((2024 : Int), (7 : Int)) ≠ ((2025 : Int), (7 : Int))
    ∧ (dashboardGET ⟨[], []⟩ (some "2024") none 2025 7).month = "July 2024"
    ∧ "July 2024" ≠ monthLabel 2025 7 := by
  refine ⟨by decide, by decide, by decide, by decide⟩

/-- C10 amended: the handler never rejects a request over its `year`
and `month` parameters. A missing (or empty) parameter defaults to the
corresponding component of the current date individually — a provided
value for the other parameter is kept. If either provided parameter
does not parse to a number (`parseInt` yields `NaN`), or the resulting
month lies outside `1..12`, then **both** fall back to the current year
and month. The response answers the aggregation for the resolved
window and is labelled with the resolved month. -/
theorem window_resolution_behaviour (yp mp : Option String) (cy cm : Int) (db : DashDb) :
    (jsFalsy yp = true → jsFalsy mp = true → resolveWindow yp mp cy cm = (cy, cm))
    ∧ (∀ m, jsFalsy yp = true → jsFalsy mp = false → jsParseInt (mp.getD "") = some m →
        1 ≤ m → m ≤ 12 → resolveWindow yp mp cy cm = (cy, m))
    ∧ (jsFalsy yp = false → jsParseInt (yp.getD "") = none →
        resolveWindow yp mp cy cm = (cy, cm))
    ∧ (jsFalsy mp = false → jsParseInt (mp.getD "") = none →
        resolveWindow yp mp cy cm = (cy, cm))
    ∧ (∀ m, jsFalsy mp = false → jsParseInt (mp.getD "") = some m → (m < 1 ∨ 12 < m) →
        resolveWindow yp mp cy cm = (cy, cm))
    ∧ dashboardGET db yp mp cy cm
        = dashboardCore db (resolveWindow yp mp cy cm).1 (resolveWindow yp mp cy cm).2
    ∧ (dashboardGET db yp mp cy cm).month
        = monthLabel (resolveWindow yp mp cy cm).1 (resolveWindow yp mp cy cm).2 := by
  refine ⟨?_, ?_, ?_, ?_, ?_, rfl, rfl⟩
  · intro h1 h2
    rw [resolveWindow]
    simp [h1, h2]
  · intro m h1 h2 h3 h4 h5
    have hc : (decide (m < 1) || decide (12 < m)) = false := by
      simp only [Bool.or_eq_false_iff, decide_eq_false_iff_not]
      omega
    rw [resolveWindow]
    simp [h1, h2, h3, hc]
  · intro h1 h2
    rw [resolveWindow]
    simp [h1, h2]
  · intro h1 h2
    rw [resolveWindow]
    simp [h1, h2]
  · intro m h1 h2 h3
    have hc : (decide (m < 1) || decide (12 < m)) = true := by
      simp only [Bool.or_eq_true, decide_eq_true_eq]
      exact h3
    rw [resolveWindow]
    simp only [h1, h2, if_false]
    rcases hty : (if jsFalsy yp = true then some cy else jsParseInt (yp.getD "")) with _ | ty
    · rfl
    · simp [hc]

/-- Witness for `window_resolution_behaviour`: a non-numeric month
parameter resets the window to the current year and month. -/
theorem window_resolution_behaviour_witness :
    resolveWindow (some "2024") (some "march") 2025 7 = (2025, 7) :=
  (window_resolution_behaviour (some "2024") (some "march") 2025 7 ⟨[], []⟩).2.2.2.1
    rfl (by decide)

end ReceiptInsights
